import Mathlib

/-!
Shallow embedding of `kanji_visualizer.py` (an interactive kanji metric
visualizer): the layout engine (`App.update_targets`), the per-sprite
animation step (`KanjiSprite.update`), the axis controller
(`App.next_x`, `App.next_y`, `App.auto_switch_axis`), the idle
auto-switch timer, the event-loop dispatch skeleton of `App.run`, the
relationship overlay resolution, and the `TextInput` widget state
machine.  Numeric state uses exact arithmetic (`ℚ` for the Python
floats, `ℤ` for millisecond timestamps from `pygame.time.get_ticks`).
-/

namespace KanjiVis

/-! ### Constants (`kanji_visualizer.py`, module level) -/

/-- `LERP_FACTOR = 0.08` (line 64). -/
def LERP_FACTOR : ℚ := 8 / 100

/-- `METRICS` (lines 75-88): the fixed ordered list of metric keys. -/
def METRICS : List String :=
  ["horizontal_ratio", "vertical_ratio", "diagonal_ratio", "scale_factor",
   "density", "cog_x", "cog_y", "skeleton_length", "holes",
   "discreteness", "inertia", "endpoints"]

/-! ### Layout engine: `App.update_targets` (lines 705-738)

The per-sprite body of the loop: given the window size, the (already
looked up) range of the two active axis keys and the sprite's two
metric values, produce the sprite's `(target_x, target_y)`. -/

/-- One sprite's target position as computed by `App.update_targets`:
range degeneracy guard (`if x_max <= x_min: x_max = x_min + 0.001`),
normalization `(v - min) / (max - min)`, clamp `max(0.0, min(1.0, n))`,
Y flip `ny = 1.0 - ny`, then scaling into the padded drawing area. -/
def update_target (w h : ℚ) (x_min x_max y_min y_max : ℚ) (vx vy : ℚ) :
    ℚ × ℚ :=
  let x_max := if x_max ≤ x_min then x_min + 1/1000 else x_max
  let y_max := if y_max ≤ y_min then y_min + 1/1000 else y_max
  let pad_l : ℚ := 60
  let pad_r : ℚ := 60
  let pad_t : ℚ := 60
  let pad_b : ℚ := 60
  let avail_w := w - (pad_l + pad_r)
  let avail_h := h - (pad_t + pad_b)
  let nx := (vx - x_min) / (x_max - x_min)
  let ny := (vy - y_min) / (y_max - y_min)
  let nx := max 0 (min 1 nx)
  let ny := max 0 (min 1 ny)
  let ny := 1 - ny
  (pad_l + nx * avail_w, pad_t + ny * avail_h)

/-! ### Sprite animation: `KanjiSprite.update` (lines 143-153) -/

/-- The animation-relevant state of a `KanjiSprite`: exact float
position `(fx, fy)` and target `(target_x, target_y)`.  The derived
integer `rect.center` (a rendering detail) is omitted. -/
structure SpriteState where
  fx : ℚ
  fy : ℚ
  target_x : ℚ
  target_y : ℚ
  deriving Repr, DecidableEq

namespace SpriteState

/-- `KanjiSprite.update`: `fx += (target_x - fx) * LERP_FACTOR` and
likewise for `fy`; the target is untouched. -/
def update (s : SpriteState) : SpriteState :=
  let dx := s.target_x - s.fx
  let dy := s.target_y - s.fy
  { s with fx := s.fx + dx * LERP_FACTOR, fy := s.fy + dy * LERP_FACTOR }

/-- The state after `n` calls of `KanjiSprite.update`. -/
def ticks (s : SpriteState) : ℕ → SpriteState
  | 0 => s
  | n + 1 => update (ticks s n)

/-- Distance from current position to target, measured in the ℓ¹ norm
(each coordinate error is scaled by the same factor per tick, so any
norm witnesses the same monotonicity and convergence facts). -/
def dist1 (s : SpriteState) : ℚ :=
  |s.target_x - s.fx| + |s.target_y - s.fy|

end SpriteState

/-! ### Axis controller: `App.next_x`, `App.next_y`,
`App.auto_switch_axis` (lines 604-650) -/

/-- The axis-selection part of `App`'s state: the two active metric
keys.  (`btn_x.text` / `btn_y.text` and the retarget call are rendering
side effects of the same assignments and are omitted.) -/
structure AxisState where
  x_key : String
  y_key : String
  deriving Repr, DecidableEq

namespace AxisState

/-- `App.next_x`: cycle `x_key` to the next entry of `METRICS`
(wrapping), skipping once if the candidate equals `y_key`. -/
def next_x (s : AxisState) : AxisState :=
  let curr_idx := METRICS.indexOf s.x_key
  let next_idx := (curr_idx + 1) % METRICS.length
  let next_idx :=
    if METRICS.getD next_idx ("") = s.y_key then
      (next_idx + 1) % METRICS.length
    else next_idx
  { s with x_key := METRICS.getD next_idx ("") }

/-- `App.next_y`: cycle `y_key`, skipping once on collision with
`x_key`. -/
def next_y (s : AxisState) : AxisState :=
  let curr_idx := METRICS.indexOf s.y_key
  let next_idx := (curr_idx + 1) % METRICS.length
  let next_idx :=
    if METRICS.getD next_idx ("") = s.x_key then
      (next_idx + 1) % METRICS.length
    else next_idx
  { s with y_key := METRICS.getD next_idx ("") }

/-- `App.auto_switch_axis` after its rejection loop has terminated:
`switch_x` records the coin flip `random.random() < 0.5`, and `new_key`
is the accepted draw.  The loop
`while new_key == self.y_key or new_key == self.x_key` means the
accepted draw satisfies `new_key ≠ y_key ∧ new_key ≠ x_key` (and
`new_key ∈ METRICS` since it comes from `random.choice(METRICS)`);
these exit conditions appear as side conditions of `AxisStep.auto`
below. -/
def auto_switch_axis (s : AxisState) (switch_x : Bool) (new_key : String) :
    AxisState :=
  if switch_x then { s with x_key := new_key } else { s with y_key := new_key }

/-- One user/timer-driven mutation of the axis selection: a `next_x`
click, a `next_y` click, or an idle `auto_switch_axis` whose accepted
random draw satisfies the rejection loop's exit condition. -/
inductive AxisStep : AxisState → AxisState → Prop
  | nextX (s : AxisState) : AxisStep s (next_x s)
  | nextY (s : AxisState) : AxisStep s (next_y s)
  | auto (s : AxisState) (switch_x : Bool) (new_key : String)
      (hmem : new_key ∈ METRICS) (hy : new_key ≠ s.y_key)
      (hx : new_key ≠ s.x_key) :
      AxisStep s (auto_switch_axis s switch_x new_key)

/-- Reachability by any finite sequence of axis mutations. -/
inductive AxisReach : AxisState → AxisState → Prop
  | refl (s : AxisState) : AxisReach s s
  | step {s t u : AxisState} : AxisReach s t → AxisStep t u → AxisReach s u

end AxisState

/-! ### Idle auto-switch timer (`App.run`, lines 783-791; interaction
reset, lines 750-759) -/

/-- The idle-timer part of `App`'s state (`App.__init__`, lines
441-444).  Timestamps are milliseconds from `pygame.time.get_ticks`. -/
structure IdleState where
  last_interaction_time : ℤ
  last_auto_switch_time : ℤ
  idle_timeout : ℤ
  auto_switch_interval : ℤ
  deriving Repr, DecidableEq

namespace IdleState

/-- The per-tick idle auto-switch check (lines 786-791).
`fresh_interval` stands for the `random.randint(350, 800)` draw made
when the switch fires.  Returns the new state and whether
`App.auto_switch_axis` was invoked on this tick. -/
def idleTick (s : IdleState) (now : ℤ) (fresh_interval : ℤ) :
    IdleState × Bool :=
  if now - s.last_interaction_time > s.idle_timeout then
    if now - s.last_auto_switch_time > s.auto_switch_interval then
      ({ s with last_auto_switch_time := now,
                auto_switch_interval := fresh_interval }, true)
    else (s, false)
  else (s, false)

/-- The event-loop reaction to a recognized user interaction (a
`KEYDOWN`, `MOUSEMOTION`, `MOUSEBUTTONDOWN` or `MOUSEBUTTONUP` event,
lines 750-759): `last_interaction_time` is set to the current tick
count. -/
def registerInteraction (s : IdleState) (now : ℤ) : IdleState :=
  { s with last_interaction_time := now }

end IdleState

/-! ### Events and geometry -/

/-- `pygame.Rect` with integer coordinates. -/
structure Rect where
  x : ℤ
  y : ℤ
  w : ℤ
  h : ℤ
  deriving Repr, DecidableEq

/-- `pygame.Rect.collidepoint`: a point on the right or bottom edge is
not inside. -/
def Rect.collidepoint (r : Rect) (px py : ℤ) : Bool :=
  decide (r.x ≤ px ∧ px < r.x + r.w ∧ r.y ≤ py ∧ py < r.y + r.h)

/-- The pygame events the program reacts to. -/
inductive Event where
  | quit
  | keydown (key : ℤ)
  | mousemotion (px py : ℤ)
  | mousebuttondown (button : ℤ) (px py : ℤ)
  | mousebuttonup (px py : ℤ)
  | textinput (text : String)
  | textediting (text : String) (start length : ℤ)
  deriving Repr, DecidableEq

/-- `pygame.K_BACKSPACE`. -/
def K_BACKSPACE : ℤ := 8

/-- `pygame.K_RETURN`. -/
def K_RETURN : ℤ := 13

/-! ### `TextInput` widget (lines 237-348) -/

/-- The state of a `TextInput`.  `last_input_text`/`last_commit_text`
are `Option` because Python creates them lazily and guards reads with
`hasattr`; their companion timestamps are read with
`getattr(self, ..., 0)`, i.e. default `0`.  Note that
`last_commit_text`/`last_commit_time` are consulted in the
`TEXTEDITING` branch (line 334) but no statement in the program ever
assigns them, so they stay at their "absent" defaults forever. -/
structure TextInputState where
  rect : Rect
  clear_rect : Rect
  text : String
  composition_text : String
  focused : Bool
  select_all_mode : Bool
  hovered : Bool
  last_input_text : Option String
  last_input_time : ℤ
  last_commit_text : Option String
  last_commit_time : ℤ
  composition_start : ℤ
  composition_length : ℤ
  deriving Repr, DecidableEq

namespace TextInputState

/-- `TextInput.__init__(x, y, w, h)` (lines 238-248):
`clear_btn_size = h - 10` and
`clear_rect = Rect(x + w - clear_btn_size - 5, y + 5, size, size)`. -/
def init (x y w h : ℤ) : TextInputState :=
  { rect := ⟨x, y, w, h⟩
    clear_rect := ⟨x + w - (h - 10) - 5, y + 5, h - 10, h - 10⟩
    text := ""
    composition_text := ""
    focused := false
    select_all_mode := false
    hovered := false
    last_input_text := none
    last_input_time := 0
    last_commit_text := none
    last_commit_time := 0
    composition_start := 0
    composition_length := 0 }

/-- `TextInput.handle_event` (lines 250-348).  `now` is
`pygame.time.get_ticks()`.  Host-pipeline calls
(`pygame.key.start_text_input`, `set_text_input_rect`,
`stop_text_input`, `set_ime_mode`) have no bearing on this state and
are omitted.  Returns (handled, new state) mirroring the Python return
value. -/
def handle_event (s : TextInputState) (event : Event) (now : ℤ) :
    Bool × TextInputState :=
  -- super().handle_event (lines 197-200): update `hovered` on MOUSEMOTION
  let s :=
    match event with
    | .mousemotion px py => { s with hovered := s.rect.collidepoint px py }
    | _ => s
  match event with
  | .mousebuttondown button px py =>
      if button = 1 then
        -- Check clear button first (lines 256-264)
        if s.text ≠ "" ∧ s.clear_rect.collidepoint px py then
          (true, { s with text := "", composition_text := "",
                          focused := true, select_all_mode := false })
        else
          let was_focused := s.focused
          let focused := s.rect.collidepoint px py
          let s := { s with focused := focused }
          let s :=
            if focused then { s with select_all_mode := true }
            else if was_focused then { s with select_all_mode := false }
            else s
          (s.focused, s)
      else (s.focused, s)
  | .keydown key =>
      if s.focused then
        if key = K_BACKSPACE then
          if s.select_all_mode then
            (false, { s with text := "", select_all_mode := false })
          else if s.composition_text.length > 0 then
            (false, { s with
              composition_text := s.composition_text.dropRight 1 })
          else
            (false, { s with text := s.text.dropRight 1 })
        else if key = K_RETURN then
          (false, { s with select_all_mode := false })
        else (false, s)
      else (false, s)
  | .textinput t =>
      if s.focused then
        let s :=
          if s.select_all_mode then
            { s with text := "", select_all_mode := false }
          else s
        -- Double input fix: debounce rapid duplicate inputs (310-314)
        let dup :=
          match s.last_input_text with
          | some prev => decide (prev = t) && decide (now - s.last_input_time < 50)
          | none => false
        if dup then (true, s)
        -- Ignore control characters (lines 316-318)
        else if t = "\r" ∨ t = "\n" ∨ t = "\t" then (true, s)
        else
          (true, { s with text := s.text ++ t, composition_text := "",
                          last_input_text := some t, last_input_time := now })
      else (false, s)
  | .textediting t st ln =>
      if s.focused then
        let s :=
          if s.select_all_mode then
            { s with text := "", select_all_mode := false }
          else s
        -- Ghost-commit debounce (lines 332-340); the truthiness test
        -- `if hasattr(self, 'last_commit_text') and self.last_commit_text`
        -- requires the attribute to exist and be non-empty.
        let ghost :=
          match s.last_commit_text with
          | some prev =>
              decide (prev ≠ "") && decide (t = prev) &&
                decide (now - s.last_commit_time < 100)
          | none => false
        if ghost then (true, { s with composition_text := "" })
        else
          (true, { s with composition_text := t, composition_start := st,
                          composition_length := ln })
      else (false, s)
  | _ => (false, s)

/-- `display_text` as assembled by `TextInput.draw` (line 359):
`full_text = self.text + self.composition_text`. -/
def display_text (s : TextInputState) : String :=
  s.text ++ s.composition_text

end TextInputState

/-! ### Relationship overlay resolution (`App.run`, lines 836-861) -/

/-- One value of `App.relationships` (`load_relationships`,
lines 664-669). -/
structure RelEntry where
  parents : List String
  children : List String
  deriving Repr, DecidableEq

/-- The `related_nodes` set built per frame in `App.run` (lines
836-861), with sprites identified by their `char` key:
`relationships` models the dict `self.relationships` and `sprite_map`
the key set of `self.sprite_map`.  If the selected char has an entry,
the selected char is added, then every parent and child present in
`sprite_map`; otherwise the set stays empty. -/
def related_nodes (selected : String)
    (relationships : List (String × RelEntry))
    (sprite_map : List String) : Finset String :=
  match relationships.lookup selected with
  | none => ∅
  | some rels =>
      let s0 : Finset String := {selected}
      let s1 := rels.parents.foldl
        (fun acc p_char =>
          if p_char ∈ sprite_map then insert p_char acc else acc) s0
      rels.children.foldl
        (fun acc c_char =>
          if c_char ∈ sprite_map then insert c_char acc else acc) s1

/-- Modelled from the spec (§4.6): `resolveRelated(symbol)` is the set
`selected ∪ parents-present ∪ children-present`, where "present" means
the key exists in the current symbol set.  Used to compare the code's
`related_nodes` against the spec's words. -/
def resolveRelatedSpec (selected : String) (rels : RelEntry)
    (sprite_map : List String) : Finset String :=
  {selected} ∪ (rels.parents.filter (fun k => decide (k ∈ sprite_map))).toFinset
    ∪ (rels.children.filter (fun k => decide (k ∈ sprite_map))).toFinset

/-! ### Event-loop dispatch skeleton (`App.run`, lines 740-780)

The first loop over the drained batch (lines 743-748) only toggles
`self.running` on QUIT / ESCAPE.  The second loop (lines 750-780) is
modelled here.  `ui_handle` stands for the inner
`for el in self.ui_elements: if el.handle_event(event): ui_handled = True`
iteration over the widget list built by `create_ui` (which registers
`btn_x`, `btn_y` and `text_input` twice each, plus the font buttons);
the theorems below hold for **every** such handler, so nothing about
the widgets is assumed.  The ghost fields `ui_dispatched` and
`sel_dispatched` record, in order, which events were passed to the UI
handlers and which reached the sprite-selection logic. -/

/-- Per-tick loop state threaded through the second event loop. -/
structure TickState (σ : Type) where
  last_interaction_time : ℤ
  ui : σ
  ui_dispatched : List Event
  sel_dispatched : List Event

/-- The body of `for event in events:` (lines 750-780). -/
def processEvent {σ : Type} (ui_handle : Event → σ → Bool × σ) (now : ℤ)
    (st : TickState σ) (event : Event) : TickState σ :=
  match event with
  -- `if event.type in (QUIT, KEYDOWN): ...; continue` (lines 751-755)
  | .quit => st
  | .keydown _ => { st with last_interaction_time := now }
  | _ =>
      -- Interaction detection for mouse (lines 758-759)
      let st :=
        match event with
        | .mousemotion _ _ | .mousebuttondown _ _ _ | .mousebuttonup _ _ =>
            { st with last_interaction_time := now }
        | _ => st
      -- Check UI first (lines 762-768)
      let handled_ui := ui_handle event st.ui
      let st := { st with ui := handled_ui.2,
                          ui_dispatched := st.ui_dispatched ++ [event] }
      if handled_ui.1 then st
      else
        -- Sprite selection (lines 771-780)
        match event with
        | .mousebuttondown b _ _ =>
            if b = 1 then
              { st with sel_dispatched := st.sel_dispatched ++ [event] }
            else st
        | _ => st

/-- The whole second loop over the drained batch, in arrival order. -/
def processBatch {σ : Type} (ui_handle : Event → σ → Bool × σ) (now : ℤ)
    (st : TickState σ) (events : List Event) : TickState σ :=
  events.foldl (processEvent ui_handle now) st

/-! ## Theorems -/

/-! ### Helper lemmas -/

/-- The clamp `max(0.0, min(1.0, n))` always lands in `[0, 1]`. -/
theorem clamp01_bounds (q : ℚ) : 0 ≤ max 0 (min 1 q) ∧ max 0 (min 1 q) ≤ 1 :=
  ⟨le_max_left 0 _, max_le (by norm_num) (min_le_left 1 q)⟩

/-- Scaling a `[0, 1]` fraction into a nonnegative extent stays inside
`[pad, pad + avail]`. -/
theorem pad_scale_bounds (pad avail a : ℚ) (h0 : 0 ≤ a) (h1 : a ≤ 1)
    (hav : 0 ≤ avail) :
    pad ≤ pad + a * avail ∧ pad + a * avail ≤ pad + avail := by
  constructor
  · nlinarith
  · nlinarith

/-- C1: for every sprite and every axis-key pair, the target computed
by `App.update_targets` — normalize, clamp to `[0,1]`, invert the Y
fraction, scale into the inset rectangle with origin `(60, 60)` and
extent `(w - 120, h - 120)` — lies within the drawable rectangle
inclusive of its boundary, for **any** metric values `vx, vy`
(in particular ones outside the recorded `[min, max]` range) and any
recorded range endpoints, provided the window is at least as large as
the four fixed 60-pixel pads. -/
theorem update_target_in_drawable (w h x_min x_max y_min y_max vx vy : ℚ)
    (hw : 120 ≤ w) (hh : 120 ≤ h) :
    60 ≤ (update_target w h x_min x_max y_min y_max vx vy).1 ∧
    (update_target w h x_min x_max y_min y_max vx vy).1 ≤ w - 60 ∧
    60 ≤ (update_target w h x_min x_max y_min y_max vx vy).2 ∧
    (update_target w h x_min x_max y_min y_max vx vy).2 ≤ h - 60 := by
  unfold update_target
  dsimp only
  obtain ⟨ha0, ha1⟩ := clamp01_bounds
    ((vx - x_min) / ((if x_max ≤ x_min then x_min + 1/1000 else x_max) - x_min))
  obtain ⟨hb0, hb1⟩ := clamp01_bounds
    ((vy - y_min) / ((if y_max ≤ y_min then y_min + 1/1000 else y_max) - y_min))
  obtain ⟨hx1, hx2⟩ := pad_scale_bounds 60 (w - (60 + 60)) _ ha0 ha1 (by linarith)
  obtain ⟨hy1, hy2⟩ := pad_scale_bounds 60 (h - (60 + 60)) _
    (by linarith : (0:ℚ) ≤ 1 - max 0 (min 1 ((vy - y_min) /
      ((if y_max ≤ y_min then y_min + 1/1000 else y_max) - y_min))))
    (by linarith) (by linarith)
  refine ⟨hx1, by linarith, hy1, by linarith⟩

/-- Witness for C1 at a concrete out-of-range input: window 1600×900,
both ranges `[0, 1]`, metric values `-5` and `7`. -/
theorem update_target_in_drawable_witness :
    (120 : ℚ) ≤ 1600 ∧ (120 : ℚ) ≤ 900 ∧
    (60 ≤ (update_target 1600 900 0 1 0 1 (-5) 7).1 ∧
     (update_target 1600 900 0 1 0 1 (-5) 7).1 ≤ 1600 - 60 ∧
     60 ≤ (update_target 1600 900 0 1 0 1 (-5) 7).2 ∧
     (update_target 1600 900 0 1 0 1 (-5) 7).2 ≤ 900 - 60) :=
  ⟨by norm_num, by norm_num,
    update_target_in_drawable 1600 900 0 1 0 1 (-5) 7 (by norm_num) (by norm_num)⟩

/-! ### Sprite animation lemmas -/

/-- One `KanjiSprite.update` scales each coordinate error, hence the
ℓ¹ distance to the target, by exactly `1 - LERP_FACTOR = 23/25`. -/
theorem dist1_update (s : SpriteState) :
    SpriteState.dist1 (SpriteState.update s) = 23/25 * SpriteState.dist1 s := by
  unfold SpriteState.update SpriteState.dist1 LERP_FACTOR
  dsimp only
  have hx : s.target_x - (s.fx + (s.target_x - s.fx) * (8/100))
      = (23/25) * (s.target_x - s.fx) := by ring
  have hy : s.target_y - (s.fy + (s.target_y - s.fy) * (8/100))
      = (23/25) * (s.target_y - s.fy) := by ring
  rw [hx, hy, abs_mul, abs_mul]
  rw [abs_of_pos (by norm_num : (0:ℚ) < 23/25)]
  ring

/-- After `n` ticks the ℓ¹ distance to the (fixed) target is exactly
`(23/25)^n` times the initial distance. -/
theorem dist1_ticks (s : SpriteState) (n : ℕ) :
    SpriteState.dist1 (SpriteState.ticks s n)
      = (23/25) ^ n * SpriteState.dist1 s := by
  induction n with
  | zero => simp [SpriteState.ticks]
  | succ n ih =>
      rw [SpriteState.ticks, dist1_update, ih, pow_succ]
      ring

/-- The ℓ¹ distance is nonnegative. -/
theorem dist1_nonneg (s : SpriteState) : 0 ≤ SpriteState.dist1 s :=
  add_nonneg (abs_nonneg _) (abs_nonneg _)

/-- C5: with a fixed target, each `KanjiSprite.update` call replaces
the current position by `current + (target - current) * LERP_FACTOR`
per axis and leaves the target untouched; consequently the distance to
the target never increases, is strictly decreasing while nonzero, and
falls below any fixed positive epsilon after a bounded number of
ticks. -/
theorem sprite_update_converges :
    (∀ s : SpriteState,
      (SpriteState.update s).fx = s.fx + (s.target_x - s.fx) * LERP_FACTOR ∧
      (SpriteState.update s).fy = s.fy + (s.target_y - s.fy) * LERP_FACTOR ∧
      (SpriteState.update s).target_x = s.target_x ∧
      (SpriteState.update s).target_y = s.target_y) ∧
    (∀ (s : SpriteState) (n : ℕ),
      SpriteState.dist1 (SpriteState.ticks s (n + 1))
        ≤ SpriteState.dist1 (SpriteState.ticks s n) ∧
      (SpriteState.dist1 (SpriteState.ticks s n) ≠ 0 →
        SpriteState.dist1 (SpriteState.ticks s (n + 1))
          < SpriteState.dist1 (SpriteState.ticks s n))) ∧
    (∀ (s : SpriteState) (ε : ℚ), 0 < ε →
      ∃ N : ℕ, ∀ n ≥ N, SpriteState.dist1 (SpriteState.ticks s n) < ε) := by
  refine ⟨fun s => ⟨rfl, rfl, rfl, rfl⟩, fun s n => ?_, fun s ε hε => ?_⟩
  · have hstep : SpriteState.dist1 (SpriteState.ticks s (n + 1))
        = 23/25 * SpriteState.dist1 (SpriteState.ticks s n) := by
      rw [SpriteState.ticks, dist1_update]
    have hnn := dist1_nonneg (SpriteState.ticks s n)
    constructor
    · rw [hstep]; nlinarith
    · intro hne
      have hpos : 0 < SpriteState.dist1 (SpriteState.ticks s n) :=
        lt_of_le_of_ne hnn (Ne.symm hne)
      rw [hstep]; nlinarith
  · rcases eq_or_lt_of_le (dist1_nonneg s) with h0 | hpos
    · refine ⟨0, fun n _ => ?_⟩
      rw [dist1_ticks, ← h0, mul_zero]
      exact hε
    · obtain ⟨N, hN⟩ := exists_pow_lt_of_lt_one
        (div_pos hε hpos) (by norm_num : (23/25 : ℚ) < 1)
      refine ⟨N, fun n hn => ?_⟩
      rw [dist1_ticks]
      have hmono : ((23:ℚ)/25) ^ n ≤ (23/25) ^ N :=
        pow_le_pow_of_le_one (by norm_num) (by norm_num) hn
      have hlt : ((23:ℚ)/25) ^ N * SpriteState.dist1 s < ε :=
        (lt_div_iff₀ hpos).1 hN
      have : ((23:ℚ)/25) ^ n * SpriteState.dist1 s
          ≤ (23/25) ^ N * SpriteState.dist1 s :=
        mul_le_mul_of_nonneg_right hmono (dist1_nonneg s)
      linarith

/-- Witness for C5: a sprite at the origin with target `(10, 10)`
moves strictly closer on the first tick, and gets within distance `1`
of the target eventually. -/
theorem sprite_update_converges_witness :
    SpriteState.dist1 (SpriteState.ticks ⟨0, 0, 10, 10⟩ (0 + 1))
      < SpriteState.dist1 (SpriteState.ticks ⟨0, 0, 10, 10⟩ 0) ∧
    ∃ N : ℕ, ∀ n ≥ N, SpriteState.dist1 (SpriteState.ticks ⟨0, 0, 10, 10⟩ n) < 1 :=
  ⟨(sprite_update_converges.2.1 ⟨0, 0, 10, 10⟩ 0).2
      (by norm_num [SpriteState.ticks, SpriteState.dist1]),
   sprite_update_converges.2.2 ⟨0, 0, 10, 10⟩ 1 (by norm_num)⟩

/-! ### Axis controller lemmas -/

set_option maxHeartbeats 1000000 in
/-- `next_x` keeps the X key inside `METRICS`, distinct from the Y
key, and leaves the Y key unchanged (checked over all 12 × 12 key
pairs). -/
theorem next_x_preserves : ∀ x ∈ METRICS, ∀ y ∈ METRICS, x ≠ y →
    (AxisState.next_x ⟨x, y⟩).x_key ∈ METRICS ∧
    (AxisState.next_x ⟨x, y⟩).x_key ≠ y ∧
    (AxisState.next_x ⟨x, y⟩).y_key = y := by
  decide

set_option maxHeartbeats 1000000 in
/-- `next_y` keeps the Y key inside `METRICS`, distinct from the X
key, and leaves the X key unchanged. -/
theorem next_y_preserves : ∀ x ∈ METRICS, ∀ y ∈ METRICS, x ≠ y →
    (AxisState.next_y ⟨x, y⟩).y_key ∈ METRICS ∧
    (AxisState.next_y ⟨x, y⟩).y_key ≠ x ∧
    (AxisState.next_y ⟨x, y⟩).x_key = x := by
  decide

/-- The combined invariant: both keys are metric keys and they are
distinct. -/
def AxisInv (s : AxisState) : Prop :=
  s.x_key ∈ METRICS ∧ s.y_key ∈ METRICS ∧ s.x_key ≠ s.y_key

/-- One step of the axis controller preserves the invariant. -/
theorem axisStep_preserves {s t : AxisState} (h : AxisState.AxisStep s t)
    (hinv : AxisInv s) : AxisInv t := by
  obtain ⟨hx, hy, hne⟩ := hinv
  cases h with
  | nextX =>
      obtain ⟨h1, h2, h3⟩ := next_x_preserves s.x_key hx s.y_key hy hne
      exact ⟨h1, h3 ▸ hy, h3 ▸ h2⟩
  | nextY =>
      obtain ⟨h1, h2, h3⟩ := next_y_preserves s.x_key hx s.y_key hy hne
      exact ⟨h3 ▸ hx, h1, h3 ▸ fun hc => h2 hc.symm⟩
  | auto switch_x new_key hmem hky hkx =>
      cases switch_x with
      | true => exact ⟨hmem, hy, hky⟩
      | false => exact ⟨hx, hmem, Ne.symm hkx⟩

/-- Reachability preserves the invariant. -/
theorem axisReach_preserves {s t : AxisState} (h : AxisState.AxisReach s t)
    (hinv : AxisInv s) : AxisInv t := by
  induction h with
  | refl => exact hinv
  | step _ hstep ih => exact axisStep_preserves hstep ih

/-- C4: starting from any state whose two axis keys are (metric keys
and) distinct, after any sequence of `next_x`, `next_y` and
`auto_switch_axis` calls — the latter with its rejection loop's exit
condition — the two axis keys are still distinct. -/
theorem axis_keys_stay_distinct (s t : AxisState)
    (h : AxisState.AxisReach s t) (hx : s.x_key ∈ METRICS)
    (hy : s.y_key ∈ METRICS) (hne : s.x_key ≠ s.y_key) :
    t.x_key ≠ t.y_key :=
  (axisReach_preserves h ⟨hx, hy, hne⟩).2.2

/-- Witness for C4: from the initial axis selection
(`init_ui_and_state`, lines 539-540), a `next_x` click followed by an
idle auto-switch of the Y axis to `"holes"` leaves the keys
distinct. -/
theorem axis_keys_stay_distinct_witness :
    (AxisState.auto_switch_axis
        (AxisState.next_x ⟨"density", "skeleton_length"⟩) false ("holes")).x_key ≠
      (AxisState.auto_switch_axis
        (AxisState.next_x ⟨"density", "skeleton_length"⟩) false ("holes")).y_key :=
  axis_keys_stay_distinct _ _
    (AxisState.AxisReach.step
      (AxisState.AxisReach.step (AxisState.AxisReach.refl _)
        (AxisState.AxisStep.nextX _))
      (AxisState.AxisStep.auto _ false ("holes") (by decide) (by decide)
        (by decide)))
    (by decide) (by decide) (by decide)

/-! ### Idle auto-switch timer -/

/-- C7: on each tick the auto switch fires exactly when
`now - last_interaction_time > idle_timeout` and
`now - last_auto_switch_time > auto_switch_interval`; when it fires,
`last_auto_switch_time` becomes `now` and a fresh random interval is
installed; when it does not fire the state is untouched; a registered
interaction resets `last_interaction_time` so that no tick within the
idle timeout can fire; and after a fire at `t0` with new interval
`f1`, ticks at `t1`, `t2` with `t1 - t0 ≤ f1`, `t2 - t0 ≤ f1` fire
nothing and leave the state unchanged, while a tick at `t3` with
`t3 - t0 > f1` (idle still holding) fires exactly one switch and
installs the next drawn interval. -/
theorem idle_auto_switch_law :
    (∀ (s : IdleState) (now f : ℤ),
      ((IdleState.idleTick s now f).2 = true ↔
        (now - s.last_interaction_time > s.idle_timeout ∧
         now - s.last_auto_switch_time > s.auto_switch_interval))) ∧
    (∀ (s : IdleState) (now f : ℤ), (IdleState.idleTick s now f).2 = true →
      (IdleState.idleTick s now f).1 =
        { s with last_auto_switch_time := now, auto_switch_interval := f }) ∧
    (∀ (s : IdleState) (now f : ℤ), (IdleState.idleTick s now f).2 = false →
      (IdleState.idleTick s now f).1 = s) ∧
    (∀ (s : IdleState) (now : ℤ),
      (IdleState.registerInteraction s now).last_interaction_time = now) ∧
    (∀ (s : IdleState) (now now' f : ℤ), now' - now ≤ s.idle_timeout →
      (IdleState.idleTick (IdleState.registerInteraction s now) now' f).2 = false) ∧
    (∀ (s s1 : IdleState) (t0 f1 t1 t2 t3 f2 f3 : ℤ),
      IdleState.idleTick s t0 f1 = (s1, true) →
      (t1 - t0 ≤ f1 → IdleState.idleTick s1 t1 f2 = (s1, false)) ∧
      (t2 - t0 ≤ f1 → IdleState.idleTick s1 t2 f2 = (s1, false)) ∧
      (t3 - t0 > f1 → t3 - s1.last_interaction_time > s1.idle_timeout →
        (IdleState.idleTick s1 t3 f3).2 = true ∧
        (IdleState.idleTick s1 t3 f3).1.auto_switch_interval = f3 ∧
        (IdleState.idleTick s1 t3 f3).1.last_auto_switch_time = t3)) := by
  refine ⟨fun s now f => ?_, fun s now f => ?_, fun s now f => ?_,
    fun s now => rfl, fun s now now' f h => ?_,
    fun s s1 t0 f1 t1 t2 t3 f2 f3 hfire => ?_⟩
  · unfold IdleState.idleTick
    split_ifs with h1 h2 <;> simp_all
  · unfold IdleState.idleTick
    split_ifs with h1 h2 <;> simp_all
  · unfold IdleState.idleTick
    split_ifs with h1 h2 <;> simp_all
  · unfold IdleState.idleTick IdleState.registerInteraction
    split_ifs with h1 h2 <;> simp_all <;> omega
  · have hcond : t0 - s.last_interaction_time > s.idle_timeout ∧
        t0 - s.last_auto_switch_time > s.auto_switch_interval := by
      unfold IdleState.idleTick at hfire
      split_ifs at hfire with h1 h2 <;> simp_all
    have hs1 : s1 = ⟨s.last_interaction_time, t0, s.idle_timeout, f1⟩ := by
      unfold IdleState.idleTick at hfire
      split_ifs at hfire with h1 h2 <;> simp_all
    subst hs1
    refine ⟨fun ht1 => ?_, fun ht2 => ?_, fun ht3 hidle => ?_⟩
    · unfold IdleState.idleTick
      split_ifs with h1 h2 <;> simp_all <;> omega
    · unfold IdleState.idleTick
      split_ifs with h1 h2 <;> simp_all <;> omega
    · unfold IdleState.idleTick
      split_ifs with h1 h2 <;> simp_all <;> omega

/-- Witness for C7 at concrete times: interaction at 0, timeout 10000
ms, interval 500 ms; a tick at 20000 fires (both strict conditions
hold), then with the fresh interval 400 a tick at 20300 fires nothing
and a tick at 20500 fires exactly one switch, installing the next
interval 420. -/
theorem idle_auto_switch_law_witness :
    ((IdleState.idleTick ⟨0, 0, 10000, 500⟩ 20000 400).2 = true) ∧
    (IdleState.idleTick ⟨0, 20000, 10000, 400⟩ 20300 420 =
      (⟨0, 20000, 10000, 400⟩, false)) ∧
    ((IdleState.idleTick ⟨0, 20000, 10000, 400⟩ 20500 420).2 = true ∧
     (IdleState.idleTick ⟨0, 20000, 10000, 400⟩ 20500 420).1.auto_switch_interval
        = 420 ∧
     (IdleState.idleTick ⟨0, 20000, 10000, 400⟩ 20500 420).1.last_auto_switch_time
        = 20500) := by
  have hscen := idle_auto_switch_law.2.2.2.2.2 ⟨0, 0, 10000, 500⟩
    ⟨0, 20000, 10000, 400⟩ 20000 400 20300 20300 20500 420 420 (by decide)
  exact ⟨(idle_auto_switch_law.1 ⟨0, 0, 10000, 500⟩ 20000 400).2 (by decide),
    hscen.1 (by decide), hscen.2.2 (by decide) (by decide)⟩

/-! ### Relationship overlay lemmas -/

/-- Folding `insert`-if-present over a list equals the union with the
filtered list, as a `Finset`. -/
theorem foldl_insert_present (m : List String) (l : List String)
    (init : Finset String) :
    l.foldl (fun acc k => if k ∈ m then insert k acc else acc) init
      = init ∪ (l.filter (fun k => decide (k ∈ m))).toFinset := by
  induction l generalizing init with
  | nil => simp
  | cons a l ih =>
      rw [List.foldl_cons, List.filter_cons]
      by_cases h : a ∈ m
      · rw [if_pos h, ih, if_pos (decide_eq_true h), List.toFinset_cons,
          Finset.union_insert, Finset.insert_union]
      · rw [if_neg h, ih, if_neg (by simp [h])]

/-- C6 counterexample: the selected symbol `"犬"` is in the sprite
set, but because it has no entry in the relationship data, the
resolved related set is empty — it does **not** contain the selected
symbol, contradicting the claim "regardless of whether that symbol has
… any entry in the relationship data". -/
theorem related_nodes_missing_entry_counterexample :
    related_nodes ("犬") [] ["犬"] = ∅ ∧
    ("犬" : String) ∉ related_nodes ("犬") [] ["犬"] := by
  constructor <;> decide

/-- C6 amended: whenever the selected symbol **has an entry** in the
relationship data (possibly with empty parent/children lists), the
resolved related set equals {selected} ∪ {parents present in the
sprite set} ∪ {children present in the sprite set}; in particular it
contains the selected symbol, and dangling referenced keys are
silently dropped.  (When the symbol has no entry the set is empty, per
the counterexample.) -/
theorem related_nodes_eq_resolveRelated (selected : String)
    (relationships : List (String × RelEntry)) (sprite_map : List String)
    (rels : RelEntry) (h : relationships.lookup selected = some rels) :
    related_nodes selected relationships sprite_map
      = resolveRelatedSpec selected rels sprite_map ∧
    selected ∈ related_nodes selected relationships sprite_map := by
  have heq : related_nodes selected relationships sprite_map
      = resolveRelatedSpec selected rels sprite_map := by
    unfold related_nodes resolveRelatedSpec
    rw [h]
    dsimp only
    rw [foldl_insert_present, foldl_insert_present]
  refine ⟨heq, ?_⟩
  rw [heq]
  unfold resolveRelatedSpec
  simp

/-- Witness for C6: symbol `"猫"` has the entry
(parents `["月"]`, children `["火", "水"]`), the sprite set is
`["猫", "火"]`; the dangling parent `"月"` and child `"水"` are
dropped and the result is exactly `{"猫", "火"}`. -/
theorem related_nodes_eq_resolveRelated_witness :
    related_nodes ("猫") [(("猫"), ⟨["月"], ["火", "水"]⟩)] ["猫", "火"]
      = resolveRelatedSpec ("猫") ⟨["月"], ["火", "水"]⟩ ["猫", "火"] ∧
    ("猫" : String) ∈
      related_nodes ("猫") [(("猫"), ⟨["月"], ["火", "水"]⟩)] ["猫", "火"] :=
  related_nodes_eq_resolveRelated ("猫") [(("猫"), ⟨["月"], ["火", "水"]⟩)]
    ["猫", "火"] ⟨["月"], ["火", "水"]⟩ (by decide)

/-! ### TextInput state machine -/

/-- C2 (code bug): the `TEXTEDITING` ghost-suppression branch is dead
code.  No statement of the program ever assigns `last_commit_text` or
`last_commit_time` (the `TEXTINPUT` branch records the committed
fragment under the different names `last_input_text` /
`last_input_time`), so `handle_event` preserves both fields from their
"absent" defaults; consequently a composition-update whose text equals
the just-committed fragment and arrives 20 ms later is **not** forced
empty: `composition_text` becomes the event's text (here `"あ"`),
contrary to the claimed stale-echo suppression. -/
theorem textediting_ghost_suppression_dead :
    (∀ (s : TextInputState) (event : Event) (now : ℤ),
      ((TextInputState.handle_event s event now).2).last_commit_text
          = s.last_commit_text ∧
      ((TextInputState.handle_event s event now).2).last_commit_time
          = s.last_commit_time) ∧
    ((((({ TextInputState.init 30 120 300 40 with focused := true
        }).handle_event (Event.textinput ("あ")) 1000).2).handle_event
        (Event.textediting ("あ") 0 1) 1020).2).composition_text = "あ" := by
  constructor
  · intro s event now
    cases event <;>
      simp only [TextInputState.handle_event] <;>
      first
        | (split_ifs <;> simp_all)
        | simp_all
  · decide

/-- C3 counterexample: with `"猫"` committed long before, the commit
event `"\t"` is neither a duplicate of the previous fragment nor
within the debounce window, yet it is **not** appended: the committed
text stays `"猫"` instead of becoming `"猫\t"`, because control
characters are filtered after the debounce check. -/
theorem commit_append_counterexample :
    ((((({ TextInputState.init 30 120 300 40 with focused := true
        }).handle_event (Event.textinput ("猫")) 100).2).handle_event
        (Event.textinput ("\t")) 1000).2).text = "猫" ∧
    ("猫" : String) ≠ "猫" ++ "\t" := by
  constructor <;> decide

/-- C3 amended: for a focused input not in replace-all mode, a commit
whose fragment equals the previously committed one and arrives within
50 ms is dropped, leaving the committed and composition text
unchanged; a non-duplicate or out-of-window commit **whose fragment is
not one of `"\r"`, `"\n"`, `"\t"`** is appended and clears the
composition text (control-character fragments are dropped without
touching the committed text); and the concrete scenario holds:
focus-gain by click, commit `"猫"`, then two commits of `"犬"` 30 ms
apart yield `display_text = "猫犬"`. -/
theorem commit_debounce_amended :
    (∀ (s : TextInputState) (t : String) (now : ℤ),
      s.focused = true → s.select_all_mode = false →
      ((s.last_input_text = some t ∧ now - s.last_input_time < 50) →
        ((TextInputState.handle_event s (Event.textinput t) now).2).text
            = s.text ∧
        ((TextInputState.handle_event s
            (Event.textinput t) now).2).composition_text
            = s.composition_text) ∧
      ((¬ (s.last_input_text = some t ∧ now - s.last_input_time < 50)) →
        t ≠ "\r" → t ≠ "\n" → t ≠ "\t" →
        ((TextInputState.handle_event s (Event.textinput t) now).2).text
            = s.text ++ t ∧
        ((TextInputState.handle_event s
            (Event.textinput t) now).2).composition_text = "")) ∧
    TextInputState.display_text
      ((((((TextInputState.init 30 120 300 40).handle_event
        (Event.mousebuttondown 1 100 130) 50).2.handle_event
        (Event.textinput ("猫")) 100).2.handle_event
        (Event.textinput ("犬")) 200).2.handle_event
        (Event.textinput ("犬")) 230).2) = "猫犬" := by
  constructor
  · intro s t now hf hsel
    constructor
    · rintro ⟨hdup, htime⟩
      simp [TextInputState.handle_event, hf, hsel, hdup, htime]
    · intro hnd h1 h2 h3
      simp only [TextInputState.handle_event, hf, hsel]
      cases hli : s.last_input_text with
      | none => simp [hli, h1, h2, h3]
      | some prev =>
          by_cases hp : prev = t
          · have hnt : ¬ (now - s.last_input_time < 50) := by
              intro hcon
              exact hnd ⟨by rw [hli, hp], hcon⟩
            simp [hli, hp, hnt, h1, h2, h3]
          · simp [hli, hp, h1, h2, h3]
  · decide

/-- Witness for C3 at a concrete input: the field holds `"猫犬"` with
`"犬"` committed at 200 ms; an identical `"犬"` commit at 230 ms is
inside the 50 ms window and leaves the committed text unchanged. -/
theorem commit_debounce_amended_witness :
    ((TextInputState.handle_event { TextInputState.init 30 120 300 40 with
        focused := true, text := "猫犬", last_input_text := some ("犬"),
        last_input_time := 200 } (Event.textinput ("犬")) 230).2).text
      = "猫犬" :=
  ((commit_debounce_amended.1 { TextInputState.init 30 120 300 40 with
      focused := true, text := "猫犬", last_input_text := some ("犬"),
      last_input_time := 200 } ("犬") 230 (by decide) (by decide)).1
    ⟨by decide, by decide⟩).1

/-- C9 counterexample: the field shows only composition text
(`text = ""`, `composition_text = "か"`), so the clear button is drawn
(line 409 tests `self.text or self.composition_text`), the click point
`(300, 130)` is inside `clear_rect = Rect(295, 125, 30, 30)` — yet the
clear branch does not run (its guard at line 256 requires `self.text`
to be non-empty): the composition text survives and the click is
handled as an ordinary focus click (select-all mode turned on). -/
theorem clear_button_counterexample :
    ((({ TextInputState.init 30 120 300 40 with
        focused := true,
        composition_text := "か" }).handle_event
        (Event.mousebuttondown 1 300 130) 500).2).composition_text = "か" ∧
    ((({ TextInputState.init 30 120 300 40 with
        focused := true,
        composition_text := "か" }).handle_event
        (Event.mousebuttondown 1 300 130) 500).2).composition_text ≠ "" ∧
    ((({ TextInputState.init 30 120 300 40 with
        focused := true,
        composition_text := "か" }).handle_event
        (Event.mousebuttondown 1 300 130) 500).2).select_all_mode = true := by
  refine ⟨by decide, by decide, by decide⟩

/-- C9 amended: a left-click on the clear-button region clears both
the committed and the composition text, keeps focus and turns
replace-all mode off — **provided the committed text is non-empty**;
when only the composition text is non-empty the click does not clear
anything (per the counterexample). -/
theorem clear_button_amended :
    ∀ (s : TextInputState) (px py now : ℤ),
      s.text ≠ "" → s.clear_rect.collidepoint px py = true →
      TextInputState.handle_event s (Event.mousebuttondown 1 px py) now =
        (true, { s with text := "", composition_text := "",
                        focused := true, select_all_mode := false }) := by
  intro s px py now ht hc
  simp only [TextInputState.handle_event]
  rw [if_pos trivial, if_pos ⟨ht, hc⟩]

/-- Witness for C9: committed `"ねこ"` plus composition `"か"`, click
at `(300, 130)` inside the clear button: everything is cleared and the
field keeps focus with replace-all off. -/
theorem clear_button_amended_witness :
    TextInputState.handle_event { TextInputState.init 30 120 300 40 with
        focused := true, text := "ねこ", composition_text := "か" }
      (Event.mousebuttondown 1 300 130) 500 =
      (true, { { TextInputState.init 30 120 300 40 with
          focused := true, text := "ねこ", composition_text := "か" } with
          text := "",
          composition_text := "",
          focused := true,
          select_all_mode := false }) :=
  clear_button_amended { TextInputState.init 30 120 300 40 with
      focused := true, text := "ねこ", composition_text := "か" }
    300 130 500 (by decide) (by decide)

/-- C10: on a commit received in replace-all mode, the committed text
is cleared and the flag consumed **before** the duplicate-debounce and
control-character checks; hence a commit that is then dropped (an
identical fragment within 50 ms, or a `"\r"`/`"\n"`/`"\t"` fragment)
still leaves the committed text empty and the flag cleared, with
nothing appended and the composition text untouched. -/
theorem replace_all_cleared_before_drop :
    ∀ (s : TextInputState) (t : String) (now : ℤ),
      s.focused = true → s.select_all_mode = true →
      ((s.last_input_text = some t ∧ now - s.last_input_time < 50) ∨
        t = "\r" ∨ t = "\n" ∨ t = "\t") →
      ((TextInputState.handle_event s (Event.textinput t) now).2).text = "" ∧
      ((TextInputState.handle_event s
          (Event.textinput t) now).2).select_all_mode = false ∧
      ((TextInputState.handle_event s
          (Event.textinput t) now).2).composition_text = s.composition_text ∧
      (TextInputState.handle_event s (Event.textinput t) now).1 = true := by
  intro s t now hf hsel hdrop
  simp only [TextInputState.handle_event, hf, hsel]
  rcases hdrop with ⟨hdup, htime⟩ | hcontrol
  · simp [hdup, htime]
  · cases hli : s.last_input_text with
    | none => rcases hcontrol with h | h | h <;> simp [hli, h]
    | some prev =>
        by_cases hp : prev = t
        · by_cases htm : now - s.last_input_time < 50
          · simp [hli, hp, htm]
          · rcases hcontrol with h | h | h <;> simp [hli, hp, htm, h]
        · rcases hcontrol with h | h | h <;> simp [hli, hp, h]

/-- Witness for C10: the field holds `"古"` with replace-all mode set;
a `"\t"` commit is dropped, yet the committed text ends up empty and
the flag cleared. -/
theorem replace_all_cleared_before_drop_witness :
    ((TextInputState.handle_event { TextInputState.init 30 120 300 40 with
        focused := true, select_all_mode := true, text := "古" }
        (Event.textinput ("\t")) 999).2).text = "" ∧
    ((TextInputState.handle_event { TextInputState.init 30 120 300 40 with
        focused := true, select_all_mode := true, text := "古" }
        (Event.textinput ("\t")) 999).2).select_all_mode = false ∧
    ((TextInputState.handle_event { TextInputState.init 30 120 300 40 with
        focused := true, select_all_mode := true, text := "古" }
        (Event.textinput ("\t")) 999).2).composition_text
      = ({ TextInputState.init 30 120 300 40 with
          focused := true, select_all_mode := true, text := "古"
          }).composition_text ∧
    (TextInputState.handle_event { TextInputState.init 30 120 300 40 with
        focused := true, select_all_mode := true, text := "古" }
        (Event.textinput ("\t")) 999).1 = true :=
  replace_all_cleared_before_drop { TextInputState.init 30 120 300 40 with
      focused := true, select_all_mode := true, text := "古" } ("\t") 999
    (by decide) (by decide) (Or.inr (Or.inr (Or.inr rfl)))

/-! ### Event-loop dispatch -/

/-- C8 (code bug): in the second event loop a `KEYDOWN` event updates
`last_interaction_time` and then `continue`s (line 755), so it is
**never dispatched to the UI element handlers** — for every handler,
the dispatched-event list and the UI state are unchanged; concretely,
a batch holding a single backspace `KEYDOWN` while the text field is
focused with committed text `"猫"` leaves the text `"猫"` (the
`K_BACKSPACE` branch of `TextInput.handle_event` is unreachable from
the loop), contrary to the claim that every non-quit event reaches the
UI handlers. -/
theorem keydown_never_reaches_ui :
    (∀ (σ : Type) (ui_handle : Event → σ → Bool × σ) (now : ℤ)
        (st : TickState σ) (k : ℤ),
      (processEvent ui_handle now st (Event.keydown k)).ui_dispatched
          = st.ui_dispatched ∧
      (processEvent ui_handle now st (Event.keydown k)).ui = st.ui ∧
      (processEvent ui_handle now st (Event.keydown k)).last_interaction_time
          = now) ∧
    ((processBatch (fun ev ui => TextInputState.handle_event ui ev 1000) 1000
        ⟨0, { TextInputState.init 30 120 300 40 with
          focused := true, text := "猫" }, [], []⟩
        [Event.keydown K_BACKSPACE]).ui.text
        = "猫" ∧
     (processBatch (fun ev ui => TextInputState.handle_event ui ev 1000) 1000
        ⟨0, { TextInputState.init 30 120 300 40 with
          focused := true, text := "猫" }, [], []⟩
        [Event.keydown K_BACKSPACE]).ui_dispatched = []) := by
  exact ⟨fun σ h now st k => ⟨rfl, rfl, rfl⟩, rfl, rfl⟩

end KanjiVis
